import Mathlib

/-!
Verification of the libusmc stepper-motor controller library (udyni/libusmc).

This file shallowly embeds the parts of `src/libusmc_impl.cpp`,
`include/libusmc_impl.h`, `include/usmctypes.h` and `include/libusmc.h`
needed to settle the frozen claims: the wire-packet codec (MODE_PACKET,
GO_TO_PACKET, PARAMETERS_PACKET), the unit conversions, the per-device
registry with its caches, and the error taxonomy.

Modelling conventions:
* C `float`/`double` fields and arithmetic are modelled over `ℚ` with exact
  arithmetic; float literals are taken at their decimal value.  Every claim
  settled numerically below is insensitive to the float rounding of the
  source (only comparisons with literals and exactly-representable ratios
  are involved at the claim inputs).
* The transcendental thermistor branch (firmware < 0x2400) uses `exp`/`log`;
  those are abstracted as explicit function arguments (`expA`, `logA`),
  keeping the surrounding arithmetic concrete.  No claim evaluates them.
* Machine integers are `ℕ`/`ℤ` with explicit `% 2^w` where the source can
  overflow or truncate.
* Stack garbage the source leaves unassigned (the MODE_PACKET `BUTSWAP`
  bit, the two bytes read past the 5-byte MODE_PACKET struct, and the
  GO_TO_PACKET `M1`/`M2` bits when the divisor is not 1/2/4/8) is threaded
  through as explicit `junk` parameters so theorems hold for every garbage
  value.
* Each registry operation returns `(return code, new registry, trace)`
  where the trace lists the USB control transfers issued, in order.  The
  hardware outcome of a transfer is an explicit `HwResult` argument.
-/

namespace LibUSMC

/-! ### Error codes (libusmc.h) -/

def ERR_SUCCESS : ℤ := 0
def ERR_INVALID_ID : ℤ := -40
def ERR_INVALID_PARAM : ℤ := -41
def ERR_INVALID_VALUE : ℤ := -42

/-- Transport-level (libusb) errors, as mapped verbatim by the library. -/
inductive UsbError where
  | io | invalidParam | access | noDevice | notFound | busy | timeout
  | overflow | pipe | interrupted | noMem | notSupported | other
deriving DecidableEq

def UsbError.code : UsbError → ℤ
  | .io => -1
  | .invalidParam => -2
  | .access => -3
  | .noDevice => -4
  | .notFound => -5
  | .busy => -6
  | .timeout => -7
  | .overflow => -8
  | .pipe => -9
  | .interrupted => -10
  | .noMem => -11
  | .notSupported => -12
  | .other => -99

/-- Outcome of one `libusb_control_transfer`: bytes transferred or an error. -/
abbrev HwResult := Except UsbError ℕ

/-- Return code the wire routines produce from a transfer outcome
(`res < 0` is the only failure test in the source). -/
def wireRet : HwResult → ℤ
  | .ok _ => 0
  | .error e => e.code

/-! ### Numeric helpers (clamp, truncation, byte packing macros) -/

/-- The source's `clamp(val, min, max)` for floats:
`val > max ? max : (val < min ? min : val)`. -/
def clampQ (v lo hi : ℚ) : ℚ := if v > hi then hi else if v < lo then lo else v

/-- The source's `clamp` overload for ints. -/
def clampI (v lo hi : ℤ) : ℤ := if v > hi then hi else if v < lo then lo else v

/-- C truncation of a real value toward zero (float → integer cast). -/
def ratTrunc (q : ℚ) : ℤ := if 0 ≤ q then ⌊q⌋ else -⌊-q⌋

/-- C cast of a (in-range) float value to `uint16_t`: truncate, wrap. -/
def toU16 (q : ℚ) : ℕ := (ratTrunc q).toNat % 65536

/-- C cast of a (in-range) float value to `uint8_t`: truncate, wrap. -/
def toU8 (q : ℚ) : ℕ := (ratTrunc q).toNat % 256

/-- `PACK_WORD(w) = HIBYTE(w) | LOBYTE(w) << 8` (byte-swap a 16-bit word). -/
def packWord (w : ℕ) : ℕ := (w / 256 % 256) + (w % 256) * 256

/-- `PACK_DWORD(w)`: full byte reversal of a 32-bit word. -/
def packDword (w : ℕ) : ℕ :=
  let hw := w / 65536 % 65536
  let lw := w % 65536
  (hw / 256 % 256) + (hw % 256) * 256 + (lw / 256 % 256) * 65536 + (lw % 256) * 16777216

/-- Little-endian bytes of a 16-bit value (the in-memory layout of a `__u16`). -/
def u16le (v : ℕ) : List ℕ := [v % 256, v / 256 % 256]

/-- Little-endian bytes of a 32-bit value. -/
def u32le (v : ℕ) : List ℕ := [v % 256, v / 256 % 256, v / 65536 % 256, v / 16777216 % 256]

/-- `FIRST_WORD`: bytes 0-1 of a packet read as a little-endian `__u16`. -/
def firstWord (l : List ℕ) : ℕ := l.getD 0 0 + 256 * l.getD 1 0

/-- `SECOND_WORD`: bytes 2-3 read as a little-endian `__u16`. -/
def secondWord (l : List ℕ) : ℕ := l.getD 2 0 + 256 * l.getD 3 0

/-- `FIRST_WORD_SWAPPED`: `(byte0 << 8) | byte1`. -/
def firstWordSwapped (l : List ℕ) : ℕ := 256 * l.getD 0 0 + l.getD 1 0

/-- `SECOND_WORD_SWAPPED`: `(byte2 << 8) | byte3`. -/
def secondWordSwapped (l : List ℕ) : ℕ := 256 * l.getD 2 0 + l.getD 3 0

/-- Numeric value of one C bit-field bit. -/
def bitv (b : Bool) : ℕ := if b then 1 else 0

/-! ### Data model (libusmc.h structures) -/

/-- `USMC_Mode`: the ~24 soft-configuration flags, field order as declared. -/
structure USMC_Mode where
  PMode : Bool
  PReg : Bool
  ResetD : Bool
  EMReset : Bool
  Tr1T : Bool
  Tr2T : Bool
  RotTrT : Bool
  TrSwap : Bool
  Tr1En : Bool
  Tr2En : Bool
  RotTeEn : Bool
  RotTrOp : Bool
  Butt1T : Bool
  Butt2T : Bool
  ResetRT : Bool
  SyncOUTEn : Bool
  SyncOUTR : Bool
  SyncINOp : Bool
  SyncCount : ℕ
  SyncInvert : Bool
  EncoderEn : Bool
  EncoderInv : Bool
  ResBEnc : Bool
  ResEnc : Bool
deriving DecidableEq

/-- `USMC_Parameters`: numeric configuration fields. `float` fields are `ℚ`,
integer fields are `ℕ` (uint16/uint32/uint8). -/
structure USMC_Parameters where
  AccelT : ℚ
  DecelT : ℚ
  PTimeout : ℚ
  BTimeout1 : ℚ
  BTimeout2 : ℚ
  BTimeout3 : ℚ
  BTimeout4 : ℚ
  BTimeoutR : ℚ
  BTimeoutD : ℚ
  MinP : ℚ
  BTO1P : ℚ
  BTO2P : ℚ
  BTO3P : ℚ
  BTO4P : ℚ
  MaxLoft : ℕ
  StartPos : ℕ
  RTDelta : ℕ
  RTMinError : ℕ
  MaxTemp : ℚ
  SynOUTP : ℕ
  LoftPeriod : ℚ
  EncMult : ℚ
deriving DecidableEq

/-- `USMC_StartParameters`: per-move configuration. -/
structure USMC_StartParameters where
  SDivisor : ℕ
  DefDir : Bool
  LoftEn : Bool
  SlStart : Bool
  WSyncIN : Bool
  SyncOUTR : Bool
  ForceLoft : Bool
deriving DecidableEq

/-- One USB control transfer as issued by the wire routines. -/
structure Transfer where
  bRequest : ℕ
  wValue : ℕ
  wIndex : ℕ
  payload : List ℕ
deriving DecidableEq

/-! ### Protocol codec: MODE_PACKET (usmc_set_mode, libusmc_impl.cpp:736) -/

/-- Garbage the source leaves unspecified in a MODE_PACKET on the stack:
the unassigned `BUTSWAP` bit-field (byte 1, bit 6) and the two bytes the
3-byte transfer reads past the 5-byte packed struct. -/
structure ModeJunk where
  butswap : Bool
  tail5 : ℕ
  tail6 : ℕ

/-- Byte 0 of MODE_PACKET as assigned by `usmc_set_mode` (first declared
bit-field at bit 0, per the little-endian C ABI). -/
def modeByte0 (m : USMC_Mode) : ℕ :=
  bitv m.PMode + 2 * bitv m.PReg + 4 * bitv m.ResetD + 8 * bitv m.EMReset +
  16 * bitv m.Tr1T + 32 * bitv m.Tr2T + 64 * bitv m.RotTrT + 128 * bitv m.TrSwap

/-- Byte 1 of MODE_PACKET; bit 6 (`BUTSWAP`) is never assigned by the source
and keeps its garbage value `bs`. -/
def modeByte1 (m : USMC_Mode) (bs : Bool) : ℕ :=
  bitv m.Tr1En + 2 * bitv m.Tr2En + 4 * bitv m.RotTeEn + 8 * bitv m.RotTrOp +
  16 * bitv m.Butt1T + 32 * bitv m.Butt2T + 64 * bitv bs + 128 * bitv m.ResetRT

/-- Byte 2 of MODE_PACKET. -/
def modeByte2 (m : USMC_Mode) : ℕ :=
  bitv m.SyncOUTEn + 2 * bitv m.SyncOUTR + 4 * bitv m.SyncINOp + 8 * bitv m.SyncInvert +
  16 * bitv m.EncoderEn + 32 * bitv m.EncoderInv + 64 * bitv m.ResBEnc + 128 * bitv m.ResEnc

/-- The `SYNCCOUNT` field: `PACK_DWORD(mode.SyncCount)` truncated to the
`__u16` field it is assigned to. -/
def syncCountRaw (w : ℕ) : ℕ := packDword (w % 4294967296) % 65536

/-- The three flag bytes of MODE_PACKET as one 24-bit word
(byte 0 lowest), used to reason about bit positions. -/
def modeFlagsWord (m : USMC_Mode) (bs : Bool) : ℕ :=
  modeByte0 m + 256 * modeByte1 m bs + 65536 * modeByte2 m

/-- Full in-memory MODE_PACKET bytes as built by `usmc_set_mode`:
three flag bytes, the little-endian `SYNCCOUNT` field, and the two
out-of-struct bytes the transfer also reads. -/
def packModeBytes (m : USMC_Mode) (junk : ModeJunk) : List ℕ :=
  [modeByte0 m, modeByte1 m junk.butswap, modeByte2 m] ++
    u16le (syncCountRaw m.SyncCount) ++ [junk.tail5 % 256, junk.tail6 % 256]

/-- Decoder of the documented MODE_PACKET layout (usmctypes.h:90-120):
each flag is read back from its declared bit position, `SYNCCOUNT` as the
little-endian word at bytes 3-4.  The `BUTSWAP` bit (byte 1, bit 6) has no
`USMC_Mode` counterpart and is ignored. -/
def unpackMode (l : List ℕ) : USMC_Mode :=
  let b0 := l.getD 0 0
  let b1 := l.getD 1 0
  let b2 := l.getD 2 0
  { PMode := b0.testBit 0
    PReg := b0.testBit 1
    ResetD := b0.testBit 2
    EMReset := b0.testBit 3
    Tr1T := b0.testBit 4
    Tr2T := b0.testBit 5
    RotTrT := b0.testBit 6
    TrSwap := b0.testBit 7
    Tr1En := b1.testBit 0
    Tr2En := b1.testBit 1
    RotTeEn := b1.testBit 2
    RotTrOp := b1.testBit 3
    Butt1T := b1.testBit 4
    Butt2T := b1.testBit 5
    ResetRT := b1.testBit 7
    SyncOUTEn := b2.testBit 0
    SyncOUTR := b2.testBit 1
    SyncINOp := b2.testBit 2
    SyncInvert := b2.testBit 3
    EncoderEn := b2.testBit 4
    EncoderInv := b2.testBit 5
    ResBEnc := b2.testBit 6
    ResEnc := b2.testBit 7
    SyncCount := l.getD 3 0 + 256 * l.getD 4 0 }

/-- The control transfer issued by `usmc_set_mode`: request 0x81,
`wValue = FIRST_WORD_SWAPPED`, `wIndex = SECOND_WORD_SWAPPED`, and a
3-byte payload starting at offset 4 of the packet. -/
def usmc_set_mode_transfer (m : USMC_Mode) (junk : ModeJunk) : Transfer :=
  let pkt := packModeBytes m junk
  { bRequest := 0x81
    wValue := firstWordSwapped pkt
    wIndex := secondWordSwapped pkt
    payload := pkt.drop 4 }

/-! ### Protocol codec: GO_TO_PACKET (usmc_goto, libusmc_impl.cpp:677) -/

/-- Timer period encoding of a move speed:
`(uint16_t)(65536.0f - (1000000.0f / clamp(speed, 16.0f, 5000.0f)) + 0.5f)`. -/
def gotoTimerPeriodRaw (speed : ℚ) : ℕ :=
  toU16 (65536 - 1000000 / clampQ speed 16 5000 + 1/2)

/-- The `M1`/`M2` bits produced by the `switch (params.SDivisor)`; for a
divisor outside {1,2,4,8} the switch has no default and the bits keep
their uninitialized values `junk`. -/
def gotoM1M2 (sd : ℕ) (junk : Bool × Bool) : Bool × Bool :=
  match sd with
  | 1 => (false, false)
  | 2 => (true, false)
  | 4 => (false, true)
  | 8 => (true, true)
  | _ => junk

/-- The 7 bytes of GO_TO_PACKET as built by `usmc_goto`: `DestPos` is the
32-bit value `position * 8` little-endian, `TimerPeriod` is `PACK_WORD` of
the period stored little-endian, byte 6 holds the move flags. -/
def gotoPacketBytes (position : ℤ) (speed : ℚ) (sp : USMC_StartParameters)
    (junk : Bool × Bool) : List ℕ :=
  let dest := ((position * 8) % 4294967296).toNat
  let tp := packWord (gotoTimerPeriodRaw speed)
  let mm := gotoM1M2 sp.SDivisor junk
  u32le dest ++ u16le tp ++
    [bitv mm.1 + 2 * bitv mm.2 + 4 * bitv sp.DefDir + 8 * bitv sp.LoftEn +
     16 * bitv sp.SlStart + 32 * bitv sp.WSyncIN + 64 * bitv sp.SyncOUTR +
     128 * bitv sp.ForceLoft]

/-- The control transfer issued by `usmc_goto`: request 0x80,
`wIndex = FIRST_WORD`, `wValue = SECOND_WORD` (both in natural little-endian
order), 3-byte payload from offset 4. -/
def usmc_goto_transfer (position : ℤ) (speed : ℚ) (sp : USMC_StartParameters)
    (junk : Bool × Bool) : Transfer :=
  let pkt := gotoPacketBytes position speed sp junk
  { bRequest := 0x80
    wValue := secondWord pkt
    wIndex := firstWord pkt
    payload := pkt.drop 4 }

/-! ### Protocol codec: PARAMETERS_PACKET (usmc_set_parameters, libusmc_impl.cpp:794) -/

/-- Millisecond-to-tick conversion used for the timeout fields:
`(uint16_t)(clamp(v, 1.0f, 9961.0f) / 0.152f + 0.5f)`
(the float literal 0.152 is modelled as 19/125). -/
def timeTicks (v : ℚ) : ℕ := toU16 (clampQ v 1 9961 / (19/125) + 1/2)

/-- Speed-to-period conversion with the 125000 divisor:
`(uint16_t)(65536.0f - (125000.0f / clamp(v, lo, hi)) + 0.5f)`. -/
def period125 (v lo hi : ℚ) : ℕ := toU16 (65536 - 125000 / clampQ v lo hi + 1/2)

/-- The `LoftPeriod` wire field: raw 0 when the input is exactly 0,
otherwise the 125000-divisor period formula clamped to [16,5000]. -/
def loftPeriodRaw (v : ℚ) : ℕ :=
  if v = 0 then 0 else packWord (period125 v 16 5000)

/-- The `MaxTemp` wire field before byte swapping.  Firmware below 0x2400
uses the thermistor inverse whose `exp` is abstracted as `expA`; newer
firmware uses the linear formula. -/
def maxTempRaw (version : ℕ) (mt : ℚ) (expA : ℚ → ℚ) : ℕ :=
  let tc := clampQ mt 0 100
  if version < 0x2400 then
    let t := 10 * expA (3950 * (1 / (tc + 273) - 1 / 298))
    toU16 ((5 * t / (10 + t)) * 65536 / (33/10) + 1/2)
  else
    toU16 ((tc + 50) / 330 * 65536 + 1/2)

/-- The `STARTPOS` wire field: zero below firmware 0x2407, otherwise
`PACK_DWORD(StartPos * 8 & 0xFFFFFF00)`. -/
def startPosRaw (version : ℕ) (sp : ℕ) : ℕ :=
  if version < 0x2407 then 0
  else packDword (sp * 8 % 4294967296 / 256 * 256)

/-- The 57 bytes of PARAMETERS_PACKET as built by `usmc_set_parameters`
(field order and conversions as in the source; `PACK_WORD`ed fields are
stored little-endian after the swap, i.e. big-endian on the wire). -/
def paramsPacketBytes (version : ℕ) (p : USMC_Parameters) (expA : ℚ → ℚ) : List ℕ :=
  [(clampI (ratTrunc (p.AccelT / 98 + 1/2)) 1 15).toNat % 256,
   (clampI (ratTrunc (p.DecelT / 98 + 1/2)) 1 15).toNat % 256] ++
  u16le (timeTicks p.PTimeout) ++
  u16le (packWord (timeTicks p.BTimeout1)) ++
  u16le (packWord (timeTicks p.BTimeout2)) ++
  u16le (packWord (timeTicks p.BTimeout3)) ++
  u16le (packWord (timeTicks p.BTimeout4)) ++
  u16le (packWord (timeTicks p.BTimeoutR)) ++
  u16le (packWord (timeTicks p.BTimeoutD)) ++
  u16le (packWord (period125 p.MinP 2 625)) ++
  u16le (packWord (period125 p.BTO1P 2 625)) ++
  u16le (packWord (period125 p.BTO2P 2 625)) ++
  u16le (packWord (period125 p.BTO3P 2 625)) ++
  u16le (packWord (period125 p.BTO4P 2 625)) ++
  u16le (packWord ((clampI p.MaxLoft 1 1023).toNat * 64 % 65536)) ++
  u32le (startPosRaw version p.StartPos) ++
  u16le (packWord ((clampI p.RTDelta 4 1023).toNat * 64 % 65536)) ++
  u16le (packWord ((clampI p.RTMinError 4 1023).toNat * 64 % 65536)) ++
  u16le (packWord (maxTempRaw version p.MaxTemp expA)) ++
  [p.SynOUTP % 256] ++
  u16le (loftPeriodRaw p.LoftPeriod) ++
  [toU8 (p.EncMult * 4 + 1/2)] ++
  List.replicate 15 0

/-- The control transfer issued by `usmc_set_parameters`: request 0x83,
`wValue = FIRST_WORD_SWAPPED`, `wIndex = SECOND_WORD` (natural order),
53-byte payload from offset 4. -/
def usmc_set_parameters_transfer (version : ℕ) (p : USMC_Parameters)
    (expA : ℚ → ℚ) : Transfer :=
  let pkt := paramsPacketBytes version p expA
  { bRequest := 0x83
    wValue := firstWordSwapped pkt
    wIndex := secondWord pkt
    payload := pkt.drop 4 }

/-! ### Unit converter: state temperature (usmc_get_state, libusmc_impl.cpp:653) -/

/-- The temperature conversion `usmc_get_state` applies to the raw 16-bit
reading.  Below firmware 0x2400 the thermistor branch uses `log`,
abstracted as `logA`; from 0x2400 on the linear formula applies. -/
def usmc_state_temp (version : ℕ) (raw : ℕ) (logA : ℚ → ℚ) : ℚ :=
  if version < 0x2400 then
    let t1 := (raw : ℚ) * (33/10) / 65536
    let t2 := t1 * 10 / (5 - t1)
    let t3 := 1/298 + (1/3950) * logA (t2 / 10)
    1 / t3 - 273
  else
    (raw : ℚ) * (33/10) * 100 / 65536 - 50

/-! ### Wire routine usmc_set_current_position (libusmc_impl.cpp:872) -/

/-- The control transfer `usmc_set_current_position` would issue: request
0x01, the masked 32-bit position `position * 8 & 0xFFFFFFE0` split as
`wValue = SECOND_WORD`, `wIndex = FIRST_WORD`, empty payload.  The public
`setCurrentPosition` never calls this routine. -/
def usmc_set_current_position_transfer (position : ℤ) : Transfer :=
  let p32 := ((position * 8) % 4294967296).toNat / 32 * 32
  { bRequest := 0x01
    wValue := p32 / 65536 % 65536
    wIndex := p32 % 65536
    payload := [] }

/-! ### Parameter validation (setParameters, libusmc_impl.cpp:393-435) -/

/-- Range check of one float field: the source rejects on
`v < lo || v > hi`, so a field passes iff `lo ≤ v ∧ v ≤ hi`. -/
def inRange (v lo hi : ℚ) : Bool := decide (lo ≤ v) && decide (v ≤ hi)

/-- Range check of one integer field. -/
def inRangeN (v lo hi : ℕ) : Bool := decide (lo ≤ v) && decide (v ≤ hi)

/-- The `LoftPeriod` check: `LoftPeriod != 0 && (LoftPeriod < 16.0f ||
LoftPeriod > 5000.0f)` rejects, so 0 or [16,5000] passes. -/
def loftOK (v : ℚ) : Bool := decide (v = 0) || inRange v 16 5000

/-- Conjunction of all range checks in `setParameters`; every failing
check returns the same `ERR_INVALID_VALUE`, so the check order does not
affect the result. -/
def paramsValid (p : USMC_Parameters) : Bool :=
  inRange p.AccelT 49 1518 && inRange p.DecelT 49 1518 &&
  inRange p.PTimeout 1 9961 && inRange p.BTimeout1 1 9961 &&
  inRange p.BTimeout2 1 9961 && inRange p.BTimeout3 1 9961 &&
  inRange p.BTimeout4 1 9961 && inRange p.BTimeoutR 1 9961 &&
  inRange p.BTimeoutD 1 9961 &&
  inRangeN p.MaxLoft 1 1023 && inRangeN p.RTDelta 4 1023 &&
  inRangeN p.RTMinError 4 1023 && inRange p.MaxTemp 0 100 &&
  inRange p.MinP 2 625 && inRange p.BTO1P 2 625 && inRange p.BTO2P 2 625 &&
  inRange p.BTO3P 2 625 && inRange p.BTO4P 2 625 &&
  loftOK p.LoftPeriod

/-! ### Device registry (USMC_impl) -/

/-- Registry bookkeeping for one open device: the parallel vectors
`_serial`, `_version`, `_mode`, `_params`, `_start_params`, `_speed`
gathered into one record per device. -/
structure DeviceRecord where
  serial : String
  version : ℕ
  mode : USMC_Mode
  params : USMC_Parameters
  start_params : USMC_StartParameters
  speed : ℚ
deriving DecidableEq

/-- The registry state: the per-device records, indexed by device id. -/
structure Registry where
  devs : List DeviceRecord
deriving DecidableEq

/-- Default mode established by `initDefaults` (libusmc_impl.cpp:946). -/
def defaultMode : USMC_Mode :=
  { PMode := false, PReg := true, ResetD := false, EMReset := false
    Tr1T := false, Tr2T := false, RotTrT := false, TrSwap := false
    Tr1En := true, Tr2En := true, RotTeEn := false, RotTrOp := true
    Butt1T := false, Butt2T := false, ResetRT := false
    SyncOUTEn := true, SyncOUTR := false, SyncINOp := true
    SyncCount := 4
    SyncInvert := false, EncoderEn := false, EncoderInv := false
    ResBEnc := false, ResEnc := false }

/-- Default parameters established by `initDefaults`. -/
def defaultParameters : USMC_Parameters :=
  { AccelT := 200, DecelT := 200, PTimeout := 100
    BTimeout1 := 500, BTimeout2 := 500, BTimeout3 := 500, BTimeout4 := 500
    BTimeoutR := 500, BTimeoutD := 0
    MinP := 500, BTO1P := 200, BTO2P := 300, BTO3P := 400, BTO4P := 500
    MaxLoft := 32, StartPos := 0, RTDelta := 200, RTMinError := 15
    MaxTemp := 70, SynOUTP := 1, LoftPeriod := 32, EncMult := 5/2 }

/-- Default start parameters established by `initDefaults`. -/
def defaultStartParameters : USMC_StartParameters :=
  { SDivisor := 8, DefDir := false, LoftEn := true, SlStart := true
    WSyncIN := false, SyncOUTR := false, ForceLoft := false }

/-- Placeholder record for out-of-range list reads; every use is guarded
by `checkDevice`. -/
def dummyDevice : DeviceRecord :=
  { serial := "", version := 0, mode := defaultMode
    params := defaultParameters, start_params := defaultStartParameters
    speed := 200 }

/-- `checkDevice`: `device >= 0 && device < _dev.size()`. -/
def checkDevice (s : Registry) (device : ℤ) : Bool :=
  decide (0 ≤ device) && decide (device < s.devs.length)

/-- Replace the record at one index by a transformed copy. -/
def setAt : List DeviceRecord → ℕ → (DeviceRecord → DeviceRecord) → List DeviceRecord
  | [], _, _ => []
  | r :: t, 0, f => f r :: t
  | r :: t, n + 1, f => r :: setAt t n f

/-- Apply a record transformation at a device id. -/
def updateDevice (s : Registry) (device : ℤ) (f : DeviceRecord → DeviceRecord) : Registry :=
  ⟨setAt s.devs device.toNat f⟩

/-- The record of a device id (guarded by `checkDevice` at every use). -/
def deviceAt (s : Registry) (device : ℤ) : DeviceRecord :=
  s.devs.getD device.toNat dummyDevice

/-! Registry operations.  Each returns the `int` result code of the public
method, the registry state after the call, and the list of USB control
transfers issued during the call, in order. -/

/-- `getMode`: validate id and pointer, copy the cache; no transfer. -/
def getMode (s : Registry) (device : ℤ) (outPtrNull : Bool) : ℤ × Option USMC_Mode :=
  if ¬ checkDevice s device then (ERR_INVALID_ID, none)
  else if outPtrNull then (ERR_INVALID_PARAM, none)
  else (ERR_SUCCESS, some (deviceAt s device).mode)

/-- `getSpeed`: validate id, return the cached speed; no transfer. -/
def getSpeed (s : Registry) (device : ℤ) : ℤ × Option ℚ :=
  if ¬ checkDevice s device then (ERR_INVALID_ID, none)
  else (ERR_SUCCESS, some (deviceAt s device).speed)

/-- `setMode`: validate id and pointer, issue the set-mode transfer, and
copy the argument into the cache only when the transfer succeeded. -/
def setMode (s : Registry) (device : ℤ) (mode : Option USMC_Mode)
    (hw : HwResult) (junk : ModeJunk) : ℤ × Registry × List Transfer :=
  if ¬ checkDevice s device then (ERR_INVALID_ID, s, [])
  else
    match mode with
    | none => (ERR_INVALID_PARAM, s, [])
    | some m =>
      let tr := usmc_set_mode_transfer m junk
      match hw with
      | .ok _ => (ERR_SUCCESS, updateDevice s device (fun r => { r with mode := m }), [tr])
      | .error e => (e.code, s, [tr])

/-- `setParameters`: validate id, pointer and all ranges, issue the
set-parameters transfer, and cache the argument only on success. -/
def setParameters (s : Registry) (device : ℤ) (params : Option USMC_Parameters)
    (hw : HwResult) (expA : ℚ → ℚ) : ℤ × Registry × List Transfer :=
  if ¬ checkDevice s device then (ERR_INVALID_ID, s, [])
  else
    match params with
    | none => (ERR_INVALID_PARAM, s, [])
    | some p =>
      if ¬ paramsValid p then (ERR_INVALID_VALUE, s, [])
      else
        let tr := usmc_set_parameters_transfer (deviceAt s device).version p expA
        match hw with
        | .ok _ => (ERR_SUCCESS, updateDevice s device (fun r => { r with params := p }), [tr])
        | .error e => (e.code, s, [tr])

/-- `setStartParameters`: validate id and pointer, then copy the argument
into the cache verbatim — no range check, no transfer. -/
def setStartParameters (s : Registry) (device : ℤ)
    (sp : Option USMC_StartParameters) : ℤ × Registry × List Transfer :=
  if ¬ checkDevice s device then (ERR_INVALID_ID, s, [])
  else
    match sp with
    | none => (ERR_INVALID_PARAM, s, [])
    | some v => (ERR_SUCCESS, updateDevice s device (fun r => { r with start_params := v }), [])

/-- `setSpeed`: validate id and the [16,5000] range, then update the
cached speed — no transfer is issued. -/
def setSpeed (s : Registry) (device : ℤ) (speed : ℚ) : ℤ × Registry × List Transfer :=
  if ¬ checkDevice s device then (ERR_INVALID_ID, s, [])
  else if speed < 16 ∨ speed > 5000 then (ERR_INVALID_VALUE, s, [])
  else (ERR_SUCCESS, updateDevice s device (fun r => { r with speed := speed }), [])

/-- `moveTo`: validate id, then issue the go-to transfer built from the
cached speed and start parameters; the caches are untouched. -/
def moveTo (s : Registry) (device : ℤ) (destination : ℤ)
    (hw : HwResult) (junk : Bool × Bool) : ℤ × Registry × List Transfer :=
  if ¬ checkDevice s device then (ERR_INVALID_ID, s, [])
  else
    let r := deviceAt s device
    (wireRet hw, s, [usmc_goto_transfer destination r.speed r.start_params junk])

/-- The control transfer issued by `usmc_stop`. -/
def usmc_stop_transfer : Transfer :=
  { bRequest := 0x07, wValue := 0, wIndex := 0, payload := [] }

/-- `stop`: validate id, issue the stop transfer. -/
def stop (s : Registry) (device : ℤ) (hw : HwResult) : ℤ × Registry × List Transfer :=
  if ¬ checkDevice s device then (ERR_INVALID_ID, s, [])
  else (wireRet hw, s, [usmc_stop_transfer])

/-- `setCurrentPosition` as written in the source: it validates the id and
then falls off the end of the function — the wire routine
`usmc_set_current_position` is never called, no transfer is issued and no
state changes.  The missing return value is modelled as `none`. -/
def setCurrentPosition (s : Registry) (device : ℤ) (position : ℤ) :
    Option ℤ × Registry × List Transfer :=
  if ¬ checkDevice s device then (some ERR_INVALID_ID, s, [])
  else (none, s, [])

/-! ### Operation alphabet and step function

Every public entry point that can mutate registry state appears below
(the getters `getMode`, `getParameters`, `getStartParameters`, `getSpeed`,
`getSerialNumber`, `getVersion`, `getState`, `getEncoderState` return
values without producing a new registry in this embedding, so they cannot
mutate by construction and are represented by `opReadOnly`). -/

inductive Op where
  | opSetMode (d : ℤ) (m : Option USMC_Mode) (hw : HwResult) (junk : ModeJunk)
  | opSetParameters (d : ℤ) (p : Option USMC_Parameters) (hw : HwResult) (expA : ℚ → ℚ)
  | opSetStartParameters (d : ℤ) (sp : Option USMC_StartParameters)
  | opSetSpeed (d : ℤ) (v : ℚ)
  | opMoveTo (d : ℤ) (dest : ℤ) (hw : HwResult) (junk : Bool × Bool)
  | opStop (d : ℤ) (hw : HwResult)
  | opSetCurrentPosition (d : ℤ) (pos : ℤ)
  | opReadOnly

/-- Discriminator for the one operation that writes the start-parameters
cache. -/
def Op.isSetStartParams : Op → Bool
  | .opSetStartParameters _ _ => true
  | _ => false

/-- Registry state after one operation. -/
def step (s : Registry) : Op → Registry
  | .opSetMode d m hw junk => (setMode s d m hw junk).2.1
  | .opSetParameters d p hw expA => (setParameters s d p hw expA).2.1
  | .opSetStartParameters d sp => (setStartParameters s d sp).2.1
  | .opSetSpeed d v => (setSpeed s d v).2.1
  | .opMoveTo d dest hw junk => (moveTo s d dest hw junk).2.1
  | .opStop d hw => (stop s d hw).2.1
  | .opSetCurrentPosition d pos => (setCurrentPosition s d pos).2.1
  | .opReadOnly => s

/-! ### Sample states for concrete witnesses -/

/-- A freshly probed device record: serial and firmware version as read
from hardware, caches as established by `initDefaults`, initial speed 200. -/
def sampleDevice : DeviceRecord :=
  { serial := "0001A", version := 0x2407, mode := defaultMode
    params := defaultParameters, start_params := defaultStartParameters
    speed := 200 }

/-- A one-device registry in its post-probe state. -/
def s0 : Registry := ⟨[sampleDevice]⟩

/-- A parameter set that passes every range check of `setParameters`
(the `initDefaults` values leave `BTimeoutD` at 0, which `setParameters`
itself would reject, so the sample raises it into range). -/
def sampleParameters : USMC_Parameters := { defaultParameters with BTimeoutD := 500 }

/-! ### Shared lemmas -/

lemma usbError_code_neg (e : UsbError) : e.code < 0 := by cases e <;> decide

lemma usbError_code_ne_validation (e : UsbError) :
    e.code ≠ ERR_INVALID_ID ∧ e.code ≠ ERR_INVALID_PARAM ∧ e.code ≠ ERR_INVALID_VALUE := by
  cases e <;> decide

lemma clampQ_mem (v lo hi : ℚ) (h : lo ≤ hi) :
    lo ≤ clampQ v lo hi ∧ clampQ v lo hi ≤ hi := by
  unfold clampQ
  split_ifs with h1 h2 <;> constructor <;> linarith

lemma get?_setAt (l : List DeviceRecord) (n : ℕ) (f : DeviceRecord → DeviceRecord) (i : ℕ) :
    (setAt l n f).get? i = if i = n then (l.get? i).map f else l.get? i := by
  induction l generalizing n i with
  | nil => simp [setAt]
  | cons r t ih =>
    cases n with
    | zero =>
      cases i with
      | zero => simp [setAt]
      | succ j => simp [setAt]
    | succ m =>
      cases i with
      | zero => simp [setAt]
      | succ j => simpa [setAt] using ih m j

lemma get?_updateDevice_startParams (s : Registry) (d : ℤ)
    (f : DeviceRecord → DeviceRecord)
    (hf : ∀ r, (f r).start_params = r.start_params) (i : ℕ) :
    ((updateDevice s d f).devs.get? i).map (fun r => r.start_params) =
      (s.devs.get? i).map (fun r => r.start_params) := by
  show ((setAt s.devs d.toNat f).get? i).map _ = _
  rw [get?_setAt]
  split
  · cases s.devs.get? i <;> simp [hf]
  · rfl

/-! ### Claim C1 -/

/-- C1: for every valid device id, `setCurrentPosition` validates the
device id but never reaches its underlying wire call: the result trace is
empty — so in particular the `usmc_set_current_position` transfer
(request 0x01) is never issued — the registry state is unchanged, and the
return value is the unspecified fall-off-the-end value (`none`). -/
theorem setCurrentPosition_validates_but_never_calls_wire
    (s : Registry) (device position : ℤ) (h : checkDevice s device = true) :
    setCurrentPosition s device position = (none, s, []) := by
  simp [setCurrentPosition, h]

theorem setCurrentPosition_validates_but_never_calls_wire_witness :
    checkDevice s0 0 = true ∧ setCurrentPosition s0 0 1000 = (none, s0, []) :=
  ⟨by decide, setCurrentPosition_validates_but_never_calls_wire s0 0 1000 (by decide)⟩

/-! ### Claim C2 -/

/-- C2 counterexample: at the valid device id 0 of the post-probe registry
`s0` and the in-range speed 200, `setSpeed` returns success while issuing
no USB control transfer at all — refuting the claim that it performs the
write-through hardware call (under the per-device lock) before updating
the cache. -/
theorem setSpeed_issues_no_hardware_call_cex :
    (setSpeed s0 0 200).2.2 = [] ∧ (setSpeed s0 0 200).1 = ERR_SUCCESS := by decide

/-- C2 (amended): for every valid device id and speed within [16,5000],
`setSpeed` succeeds, updates only the cached speed, and issues no
hardware call — the cached speed is transmitted to hardware only by the
next `moveTo`. -/
theorem setSpeed_updates_cache_only
    (s : Registry) (device : ℤ) (v : ℚ)
    (h : checkDevice s device = true) (h1 : 16 ≤ v) (h2 : v ≤ 5000) :
    setSpeed s device v =
      (ERR_SUCCESS, updateDevice s device (fun r => { r with speed := v }), []) := by
  have hv : ¬ (v < 16 ∨ v > 5000) := by
    push_neg
    exact ⟨h1, h2⟩
  simp [setSpeed, h, hv]

theorem setSpeed_updates_cache_only_witness :
    checkDevice s0 0 = true ∧ (16 : ℚ) ≤ 300 ∧ (300 : ℚ) ≤ 5000 ∧
      setSpeed s0 0 300 =
        (ERR_SUCCESS, updateDevice s0 0 (fun r => { r with speed := 300 }), []) :=
  ⟨by decide, by norm_num, by norm_num,
    setSpeed_updates_cache_only s0 0 300 (by decide) (by norm_num) (by norm_num)⟩

/-! ### Claim C3 -/

/-- The all-false mode (every flag cleared, `SyncCount` 0). -/
def zeroMode : USMC_Mode :=
  { PMode := false, PReg := false, ResetD := false, EMReset := false
    Tr1T := false, Tr2T := false, RotTrT := false, TrSwap := false
    Tr1En := false, Tr2En := false, RotTeEn := false, RotTrOp := false
    Butt1T := false, Butt2T := false, ResetRT := false
    SyncOUTEn := false, SyncOUTR := false, SyncINOp := false
    SyncCount := 0
    SyncInvert := false, EncoderEn := false, EncoderInv := false
    ResBEnc := false, ResEnc := false }

/-- The mode with exactly the i-th flag set, flags enumerated in the
write-path packing order of `usmc_set_mode`. -/
def oneFlagModeN : ℕ → USMC_Mode
  | 0 => { zeroMode with PMode := true }
  | 1 => { zeroMode with PReg := true }
  | 2 => { zeroMode with ResetD := true }
  | 3 => { zeroMode with EMReset := true }
  | 4 => { zeroMode with Tr1T := true }
  | 5 => { zeroMode with Tr2T := true }
  | 6 => { zeroMode with RotTrT := true }
  | 7 => { zeroMode with TrSwap := true }
  | 8 => { zeroMode with Tr1En := true }
  | 9 => { zeroMode with Tr2En := true }
  | 10 => { zeroMode with RotTeEn := true }
  | 11 => { zeroMode with RotTrOp := true }
  | 12 => { zeroMode with Butt1T := true }
  | 13 => { zeroMode with Butt2T := true }
  | 14 => { zeroMode with ResetRT := true }
  | 15 => { zeroMode with SyncOUTEn := true }
  | 16 => { zeroMode with SyncOUTR := true }
  | 17 => { zeroMode with SyncINOp := true }
  | 18 => { zeroMode with SyncInvert := true }
  | 19 => { zeroMode with EncoderEn := true }
  | 20 => { zeroMode with EncoderInv := true }
  | 21 => { zeroMode with ResBEnc := true }
  | 22 => { zeroMode with ResEnc := true }
  | _ => zeroMode

/-- Documented bit position of the i-th flag within the three flag bytes
of MODE_PACKET (usmctypes.h: bit 0 is the first listed flag of each byte;
byte-1 bit 6 is the `BUTSWAP` bit, which no `USMC_Mode` flag maps to, so
position 14 is skipped). -/
def docBitPosN : ℕ → ℕ
  | 0 => 0 | 1 => 1 | 2 => 2 | 3 => 3 | 4 => 4 | 5 => 5 | 6 => 6 | 7 => 7
  | 8 => 8 | 9 => 9 | 10 => 10 | 11 => 11 | 12 => 12 | 13 => 13
  | 14 => 15
  | 15 => 16 | 16 => 17 | 17 => 18 | 18 => 19 | 19 => 20 | 20 => 21
  | 21 => 22 | 22 => 23
  | _ => 0

/-- C3: for each of the 23 mode flags set individually, the `usmc_set_mode`
packing places exactly that flag at its documented bit position: the
packed 24-bit flag word differs from the all-clear packing in precisely
that one bit (xor with the single bit, which is clear in the all-clear
packing), the bytes beyond the flag bytes are unaffected, and decoding
the packet through the documented layout recovers the single-flag mode —
all of this for either garbage value of the unassigned `BUTSWAP` bit. -/
theorem mode_single_flag_bit_positions :
    ∀ (i : Fin 23) (bs : Bool),
      modeFlagsWord (oneFlagModeN i.val) bs =
          modeFlagsWord zeroMode bs ^^^ 2 ^ docBitPosN i.val ∧
      modeFlagsWord zeroMode bs &&& 2 ^ docBitPosN i.val = 0 ∧
      unpackMode (packModeBytes (oneFlagModeN i.val) ⟨bs, 0, 0⟩) = oneFlagModeN i.val ∧
      (packModeBytes (oneFlagModeN i.val) ⟨bs, 0, 0⟩).drop 3 =
          (packModeBytes zeroMode ⟨bs, 0, 0⟩).drop 3 := by
  decide

/-! ### Claim C4 -/

/-- C4: whenever `setMode` or `setParameters` returns a negative error the
registry (in particular the corresponding cached structure) is unchanged,
and whenever the error is one of the validation errors — invalid id, null
pointer, out-of-range field — the trace is empty, i.e. no wire
transaction was issued at all. -/
theorem setMode_setParameters_error_leaves_cache
    (s : Registry) (d : ℤ) (m : Option USMC_Mode) (p : Option USMC_Parameters)
    (hwm hwp : HwResult) (junk : ModeJunk) (expA : ℚ → ℚ)
    (r1 : ℤ) (s1 : Registry) (t1 : List Transfer)
    (r2 : ℤ) (s2 : Registry) (t2 : List Transfer)
    (h1 : setMode s d m hwm junk = (r1, s1, t1))
    (h2 : setParameters s d p hwp expA = (r2, s2, t2)) :
    (r1 < 0 → s1 = s) ∧ (r2 < 0 → s2 = s) ∧
    ((r1 = ERR_INVALID_ID ∨ r1 = ERR_INVALID_PARAM ∨ r1 = ERR_INVALID_VALUE) → t1 = []) ∧
    ((r2 = ERR_INVALID_ID ∨ r2 = ERR_INVALID_PARAM ∨ r2 = ERR_INVALID_VALUE) → t2 = []) := by
  have H1 : ((setMode s d m hwm junk).1 < 0 → (setMode s d m hwm junk).2.1 = s) ∧
      (((setMode s d m hwm junk).1 = ERR_INVALID_ID ∨
        (setMode s d m hwm junk).1 = ERR_INVALID_PARAM ∨
        (setMode s d m hwm junk).1 = ERR_INVALID_VALUE) →
        (setMode s d m hwm junk).2.2 = []) := by
    by_cases hc : checkDevice s d = true
    · cases m with
      | none =>
        have e : setMode s d none hwm junk = (ERR_INVALID_PARAM, s, []) := by
          simp [setMode, hc]
        rw [e]
        exact ⟨fun _ => rfl, fun _ => rfl⟩
      | some mm =>
        cases hwm with
        | ok n =>
          have e : setMode s d (some mm) (Except.ok n) junk =
              (ERR_SUCCESS, updateDevice s d (fun r => { r with mode := mm }),
                [usmc_set_mode_transfer mm junk]) := by
            simp [setMode, hc]
          rw [e]
          refine ⟨fun h => absurd h (by norm_num [ERR_SUCCESS]), fun h => ?_⟩
          exact absurd h (by norm_num [ERR_SUCCESS, ERR_INVALID_ID, ERR_INVALID_PARAM, ERR_INVALID_VALUE])
        | error ue =>
          have e : setMode s d (some mm) (Except.error ue) junk =
              (ue.code, s, [usmc_set_mode_transfer mm junk]) := by
            simp [setMode, hc]
          rw [e]
          refine ⟨fun _ => rfl, fun h => ?_⟩
          rcases usbError_code_ne_validation ue with ⟨n1, n2, n3⟩
          rcases h with h | h | h
          · exact absurd h n1
          · exact absurd h n2
          · exact absurd h n3
    · have e : setMode s d m hwm junk = (ERR_INVALID_ID, s, []) := by
        simp [setMode, hc]
      rw [e]
      exact ⟨fun _ => rfl, fun _ => rfl⟩
  have H2 : ((setParameters s d p hwp expA).1 < 0 → (setParameters s d p hwp expA).2.1 = s) ∧
      (((setParameters s d p hwp expA).1 = ERR_INVALID_ID ∨
        (setParameters s d p hwp expA).1 = ERR_INVALID_PARAM ∨
        (setParameters s d p hwp expA).1 = ERR_INVALID_VALUE) →
        (setParameters s d p hwp expA).2.2 = []) := by
    by_cases hc : checkDevice s d = true
    · cases p with
      | none =>
        have e : setParameters s d none hwp expA = (ERR_INVALID_PARAM, s, []) := by
          simp [setParameters, hc]
        rw [e]
        exact ⟨fun _ => rfl, fun _ => rfl⟩
      | some pp =>
        by_cases hv : paramsValid pp = true
        · cases hwp with
          | ok n =>
            have e : setParameters s d (some pp) (Except.ok n) expA =
                (ERR_SUCCESS, updateDevice s d (fun r => { r with params := pp }),
                  [usmc_set_parameters_transfer (deviceAt s d).version pp expA]) := by
              simp [setParameters, hc, hv]
            rw [e]
            refine ⟨fun h => absurd h (by norm_num [ERR_SUCCESS]), fun h => ?_⟩
            exact absurd h (by norm_num [ERR_SUCCESS, ERR_INVALID_ID, ERR_INVALID_PARAM, ERR_INVALID_VALUE])
          | error ue =>
            have e : setParameters s d (some pp) (Except.error ue) expA =
                (ue.code, s, [usmc_set_parameters_transfer (deviceAt s d).version pp expA]) := by
              simp [setParameters, hc, hv]
            rw [e]
            refine ⟨fun _ => rfl, fun h => ?_⟩
            rcases usbError_code_ne_validation ue with ⟨n1, n2, n3⟩
            rcases h with h | h | h
            · exact absurd h n1
            · exact absurd h n2
            · exact absurd h n3
        · have e : setParameters s d (some pp) hwp expA = (ERR_INVALID_VALUE, s, []) := by
            simp [setParameters, hc, hv]
          rw [e]
          exact ⟨fun _ => rfl, fun _ => rfl⟩
    · have e : setParameters s d p hwp expA = (ERR_INVALID_ID, s, []) := by
        simp [setParameters, hc]
      rw [e]
      exact ⟨fun _ => rfl, fun _ => rfl⟩
  rw [h1] at H1
  rw [h2] at H2
  exact ⟨H1.1, H2.1, H1.2, H2.2⟩

theorem setMode_setParameters_error_leaves_cache_witness :
    setMode s0 0 none (Except.ok 0) ⟨false, 0, 0⟩ = (ERR_INVALID_PARAM, s0, []) ∧
    setParameters s0 0 none (Except.ok 0) (fun q => q) = (ERR_INVALID_PARAM, s0, []) ∧
    ((ERR_INVALID_PARAM < 0 → s0 = s0) ∧ (ERR_INVALID_PARAM < 0 → s0 = s0) ∧
     ((ERR_INVALID_PARAM = ERR_INVALID_ID ∨ ERR_INVALID_PARAM = ERR_INVALID_PARAM ∨
       ERR_INVALID_PARAM = ERR_INVALID_VALUE) → ([] : List Transfer) = []) ∧
     ((ERR_INVALID_PARAM = ERR_INVALID_ID ∨ ERR_INVALID_PARAM = ERR_INVALID_PARAM ∨
       ERR_INVALID_PARAM = ERR_INVALID_VALUE) → ([] : List Transfer) = [])) :=
  ⟨rfl, rfl,
    setMode_setParameters_error_leaves_cache s0 0 none none (Except.ok 0) (Except.ok 0)
      ⟨false, 0, 0⟩ (fun q => q) ERR_INVALID_PARAM s0 [] ERR_INVALID_PARAM s0 []
      rfl rfl⟩

/-! ### Claim C5 -/

/-- Refinement reference following the spec's words for the setup words of
a write packet: the first two raw bytes (the low word) transmitted
most-significant-byte-first, the high word (bytes 2-3) in natural
little-endian order. -/
def specSetupWords (pkt : List ℕ) : ℕ × ℕ :=
  (256 * pkt.getD 0 0 + pkt.getD 1 0, pkt.getD 2 0 + 256 * pkt.getD 3 0)

/-- C5 counterexample: for the set-mode packet with only `SyncOUTEn` set
(packet bytes 0,0,1,0,...), the transfer built by `usmc_set_mode` carries
the setup words (0, 256) — the high word is byte-swapped — while the
spec's convention (low word most-significant-byte-first, high word
natural) predicts (0, 1); the two do not agree even up to exchanging
`wValue` and `wIndex`. -/
theorem write_packet_word_convention_cex :
    (usmc_set_mode_transfer (oneFlagModeN 15) ⟨false, 0, 0⟩).wValue = 0 ∧
    (usmc_set_mode_transfer (oneFlagModeN 15) ⟨false, 0, 0⟩).wIndex = 256 ∧
    specSetupWords (packModeBytes (oneFlagModeN 15) ⟨false, 0, 0⟩) = (0, 1) ∧
    ((usmc_set_mode_transfer (oneFlagModeN 15) ⟨false, 0, 0⟩).wValue,
     (usmc_set_mode_transfer (oneFlagModeN 15) ⟨false, 0, 0⟩).wIndex) ≠
      specSetupWords (packModeBytes (oneFlagModeN 15) ⟨false, 0, 0⟩) ∧
    ((usmc_set_mode_transfer (oneFlagModeN 15) ⟨false, 0, 0⟩).wIndex,
     (usmc_set_mode_transfer (oneFlagModeN 15) ⟨false, 0, 0⟩).wValue) ≠
      specSetupWords (packModeBytes (oneFlagModeN 15) ⟨false, 0, 0⟩) := by
  decide

/-- C5 (amended): the first 4 raw bytes of every write packet are carried
as the two 16-bit setup parameters rather than in the payload, and the
remaining bytes form the transferred payload; but the word convention is
per-packet rather than uniform: the move packet sends the low word (into
`wIndex`) and the high word (into `wValue`) both in natural order, the
set-mode packet sends both words most-significant-byte-first, and only the
set-parameters packet sends the low word most-significant-byte-first with
the high word natural, as the spec describes. -/
theorem write_packet_setup_words
    (pos : ℤ) (speed : ℚ) (sp : USMC_StartParameters) (j2 : Bool × Bool)
    (m : USMC_Mode) (jm : ModeJunk) (ver : ℕ) (p : USMC_Parameters) (expA : ℚ → ℚ) :
    (usmc_goto_transfer pos speed sp j2).wIndex =
        (gotoPacketBytes pos speed sp j2).getD 0 0 +
          256 * (gotoPacketBytes pos speed sp j2).getD 1 0 ∧
    (usmc_goto_transfer pos speed sp j2).wValue =
        (gotoPacketBytes pos speed sp j2).getD 2 0 +
          256 * (gotoPacketBytes pos speed sp j2).getD 3 0 ∧
    (usmc_goto_transfer pos speed sp j2).payload = (gotoPacketBytes pos speed sp j2).drop 4 ∧
    (gotoPacketBytes pos speed sp j2).length = 7 ∧
    (usmc_set_mode_transfer m jm).wValue =
        256 * (packModeBytes m jm).getD 0 0 + (packModeBytes m jm).getD 1 0 ∧
    (usmc_set_mode_transfer m jm).wIndex =
        256 * (packModeBytes m jm).getD 2 0 + (packModeBytes m jm).getD 3 0 ∧
    (usmc_set_mode_transfer m jm).payload = (packModeBytes m jm).drop 4 ∧
    (packModeBytes m jm).length = 7 ∧
    (usmc_set_parameters_transfer ver p expA).wValue =
        256 * (paramsPacketBytes ver p expA).getD 0 0 + (paramsPacketBytes ver p expA).getD 1 0 ∧
    (usmc_set_parameters_transfer ver p expA).wIndex =
        (paramsPacketBytes ver p expA).getD 2 0 + 256 * (paramsPacketBytes ver p expA).getD 3 0 ∧
    (usmc_set_parameters_transfer ver p expA).payload = (paramsPacketBytes ver p expA).drop 4 ∧
    (paramsPacketBytes ver p expA).length = 57 := by
  refine ⟨?_, ?_, ?_, ?_, ?_, ?_, ?_, ?_, ?_, ?_, ?_, ?_⟩ <;>
    simp [usmc_goto_transfer, usmc_set_mode_transfer, usmc_set_parameters_transfer,
      firstWord, secondWord, firstWordSwapped, secondWordSwapped,
      gotoPacketBytes, packModeBytes, paramsPacketBytes, u16le, u32le]

/-! ### Claim C6 -/

/-- C6 counterexample: on firmware 0x2400 the raw temperature reading
32768 converts to 115 °C, not the claimed 15 °C
(`32768 * 3.3 * 100 / 65536 = 165`, and `165 - 50 = 115`). -/
theorem state_temp_32768_cex :
    usmc_state_temp 0x2400 32768 (fun _ => 0) = 115 ∧
    usmc_state_temp 0x2400 32768 (fun _ => 0) ≠ 15 := by
  constructor
  · norm_num [usmc_state_temp]
  · norm_num [usmc_state_temp]

/-- C6 (amended): for every device whose firmware version is ≥ 0x2400,
the `usmc_get_state` temperature conversion maps the raw reading r to
`(r * 3.3 * 100 / 65536) - 50` degrees Celsius; in particular raw value
32768 yields 115.0 °C (not 15.0 °C). -/
theorem state_temp_formula_v2400 (v : ℕ) (hv : 0x2400 ≤ v) (raw : ℕ) (logA : ℚ → ℚ) :
    usmc_state_temp v raw logA = (raw : ℚ) * (33/10) * 100 / 65536 - 50 ∧
    usmc_state_temp v 32768 logA = 115 := by
  have h : ¬ v < 0x2400 := by omega
  constructor
  · simp [usmc_state_temp, h]
  · simp [usmc_state_temp, h]
    norm_num

theorem state_temp_formula_v2400_witness :
    0x2400 ≤ 0x2400 ∧ usmc_state_temp 0x2400 32768 (fun _ => 0) = 115 :=
  ⟨by norm_num, (state_temp_formula_v2400 0x2400 (by norm_num) 32768 (fun _ => 0)).2⟩

/-! ### Claim C7 -/

lemma paramsValid_set_AccelT (p : USMC_Parameters) (v : ℚ)
    (hp : paramsValid p = true) (h1 : 49 ≤ v) (h2 : v ≤ 1518) :
    paramsValid { p with AccelT := v } = true := by
  simp only [paramsValid, inRange, inRangeN, loftOK, Bool.and_eq_true, Bool.or_eq_true,
    decide_eq_true_eq, and_assoc] at hp ⊢
  exact ⟨h1, h2, hp.2.2⟩

lemma paramsValid_set_AccelT_out (p : USMC_Parameters) (v : ℚ) (h : v < 49 ∨ 1518 < v) :
    paramsValid { p with AccelT := v } = false := by
  have : ¬ (49 ≤ v ∧ v ≤ 1518) := by
    rcases h with h | h
    · exact fun hc => absurd hc.1 (not_le.mpr h)
    · exact fun hc => absurd hc.2 (not_le.mpr h)
  simp only [paramsValid, inRange, inRangeN, loftOK, Bool.and_eq_true, Bool.or_eq_true,
    decide_eq_true_eq, and_assoc, Bool.eq_false_iff, ne_eq]
  intro hc
  exact this ⟨hc.1, hc.2.1⟩

/-- C7: `setParameters` accepts the boundary values AccelT = 49.0 and
AccelT = 1518.0 (succeeding whenever the rest of the parameter set is
valid and the transfer succeeds) and rejects AccelT = 48.999 and
AccelT = 1518.001 with the invalid-value error; `setSpeed` accepts
speed = 16.0 and speed = 5000.0 and rejects 15.999 with the invalid-value
error — the documented range boundaries are inclusive. -/
theorem boundary_values_inclusive
    (s : Registry) (d : ℤ) (p : USMC_Parameters) (hw : HwResult) (expA : ℚ → ℚ) (n : ℕ)
    (hd : checkDevice s d = true) (hp : paramsValid p = true) :
    (setParameters s d (some { p with AccelT := 49 }) (Except.ok n) expA).1 = ERR_SUCCESS ∧
    (setParameters s d (some { p with AccelT := 1518 }) (Except.ok n) expA).1 = ERR_SUCCESS ∧
    (setParameters s d (some { p with AccelT := 48999/1000 }) hw expA).1 = ERR_INVALID_VALUE ∧
    (setParameters s d (some { p with AccelT := 1518001/1000 }) hw expA).1 = ERR_INVALID_VALUE ∧
    (setSpeed s d 16).1 = ERR_SUCCESS ∧
    (setSpeed s d 5000).1 = ERR_SUCCESS ∧
    (setSpeed s d (15999/1000)).1 = ERR_INVALID_VALUE := by
  have ha : paramsValid { p with AccelT := (49 : ℚ) } = true :=
    paramsValid_set_AccelT p 49 hp (by norm_num) (by norm_num)
  have hb : paramsValid { p with AccelT := (1518 : ℚ) } = true :=
    paramsValid_set_AccelT p 1518 hp (by norm_num) (by norm_num)
  have hc : paramsValid { p with AccelT := (48999/1000 : ℚ) } = false :=
    paramsValid_set_AccelT_out p _ (by norm_num)
  have he : paramsValid { p with AccelT := (1518001/1000 : ℚ) } = false :=
    paramsValid_set_AccelT_out p _ (by norm_num)
  refine ⟨?_, ?_, ?_, ?_, ?_, ?_, ?_⟩
  · simp [setParameters, hd, ha]
  · simp [setParameters, hd, hb]
  · simp [setParameters, hd, hc]
  · simp [setParameters, hd, he]
  · have h1 : ¬ ((16 : ℚ) < 16) := by norm_num
    have h2 : ¬ ((16 : ℚ) > 5000) := by norm_num
    simp [setSpeed, hd, h1, h2]
  · have h1 : ¬ ((5000 : ℚ) < 16) := by norm_num
    have h2 : ¬ ((5000 : ℚ) > 5000) := by norm_num
    simp [setSpeed, hd, h1, h2]
  · have h1 : (15999/1000 : ℚ) < 16 := by norm_num
    simp [setSpeed, hd, h1]

theorem boundary_values_inclusive_witness :
    checkDevice s0 0 = true ∧ paramsValid sampleParameters = true ∧
    ((setParameters s0 0 (some { sampleParameters with AccelT := 49 })
        (Except.ok 7) (fun q => q)).1 = ERR_SUCCESS ∧
     (setParameters s0 0 (some { sampleParameters with AccelT := 1518 })
        (Except.ok 7) (fun q => q)).1 = ERR_SUCCESS ∧
     (setParameters s0 0 (some { sampleParameters with AccelT := 48999/1000 })
        (Except.ok 7) (fun q => q)).1 = ERR_INVALID_VALUE ∧
     (setParameters s0 0 (some { sampleParameters with AccelT := 1518001/1000 })
        (Except.ok 7) (fun q => q)).1 = ERR_INVALID_VALUE ∧
     (setSpeed s0 0 16).1 = ERR_SUCCESS ∧
     (setSpeed s0 0 5000).1 = ERR_SUCCESS ∧
     (setSpeed s0 0 (15999/1000)).1 = ERR_INVALID_VALUE) :=
  ⟨by decide, by norm_num [paramsValid, sampleParameters, defaultParameters, inRange, inRangeN, loftOK],
    boundary_values_inclusive s0 0 sampleParameters (Except.ok 7) (fun q => q) 7
      (by decide)
      (by norm_num [paramsValid, sampleParameters, defaultParameters, inRange, inRangeN, loftOK])⟩

/-! ### Claim C8 -/

/-- C8: the move path converts a speed s (steps/sec) to the 16-bit timer
period `round(65536 - 1000000 / s)` after clamping s to [16,5000]
(the source's `+ 0.5` followed by truncation on a positive value is
exactly rounding); in particular speed 200 produces period 60536, before
the `PACK_WORD` byte-order packing. -/
theorem goto_timer_period_round (s : ℚ) :
    (gotoTimerPeriodRaw s : ℤ) = round (65536 - 1000000 / clampQ s 16 5000) ∧
    gotoTimerPeriodRaw 200 = 60536 := by
  constructor
  · obtain ⟨hlo, hhi⟩ := clampQ_mem s 16 5000 (by norm_num)
    set c := clampQ s 16 5000 with hc
    have hcpos : (0 : ℚ) < c := by linarith
    have hdle : 1000000 / c ≤ 62500 := by
      rw [div_le_iff₀ hcpos]
      nlinarith
    have hdge : (200 : ℚ) ≤ 1000000 / c := by
      rw [le_div_iff₀ hcpos]
      nlinarith
    set q : ℚ := 65536 - 1000000 / c + 1/2 with hq
    have hq0 : (0 : ℚ) ≤ q := by rw [hq]; linarith
    have hqlt : q < 65536 := by rw [hq]; linarith
    have hfl0 : (0 : ℤ) ≤ ⌊q⌋ := Int.floor_nonneg.mpr hq0
    have hflt : ⌊q⌋ < 65536 := by
      have := Int.floor_le_floor (le_of_lt hqlt)
      have h2 : (⌊q⌋ : ℚ) ≤ q := Int.floor_le q
      exact_mod_cast lt_of_le_of_lt (Int.le_floor.mpr h2) (by exact_mod_cast Int.floor_lt.mpr (by push_cast; linarith))
    unfold gotoTimerPeriodRaw toU16 ratTrunc
    rw [if_pos hq0]
    rw [Nat.mod_eq_of_lt (by omega : ⌊q⌋.toNat < 65536)]
    rw [Int.toNat_of_nonneg hfl0]
    rw [round_eq]
  · show toU16 (65536 - 1000000 / clampQ 200 16 5000 + 1/2) = 60536
    norm_num [clampQ, toU16, ratTrunc]
    decide

/-! ### Claim C9 -/

/-- C9 counterexample: from the post-probe registry `s0` (a reachable
state, with the default divisor 8), one `setStartParameters` call with
SDivisor = 3 is accepted — the source performs no divisor validation —
and leaves a reachable state whose cached step divisor is 3 ∉ {1,2,4,8}. -/
theorem sdivisor_invariant_cex :
    ((step s0 (Op.opSetStartParameters 0
        (some { defaultStartParameters with SDivisor := 3 }))).devs.map
      (fun r => r.start_params.SDivisor)) = [3] ∧
    (setStartParameters s0 0 (some { defaultStartParameters with SDivisor := 3 })).1 =
      ERR_SUCCESS ∧
    ¬ (3 ∈ ([1, 2, 4, 8] : List ℕ)) := by
  refine ⟨rfl, rfl, by decide⟩

/-- C9 (amended): `initDefaults` establishes the cached step divisor 8 ∈
{1,2,4,8}, and every registry operation other than `setStartParameters`
leaves every device's cached start parameters (hence its divisor)
unchanged; `setStartParameters`, however, stores any caller-supplied
start parameters verbatim without validating the divisor, so the {1,2,4,8}
invariant holds only for divisor values that are never overwritten with an
out-of-set value.  The move packet encodes a cached divisor d ∈ {1,2,4,8}
as the 2-bit code (M1,M2) with `d = 2 ^ (2*M2 + M1)`. -/
theorem sdivisor_default_preservation_encoding :
    defaultStartParameters.SDivisor = 8 ∧
    (∀ (s : Registry) (op : Op), op.isSetStartParams = false → ∀ i : ℕ,
      ((step s op).devs.get? i).map (fun r => r.start_params) =
        (s.devs.get? i).map (fun r => r.start_params)) ∧
    (∀ (s : Registry) (d : ℤ) (sp : USMC_StartParameters), checkDevice s d = true →
      setStartParameters s d (some sp) =
        (ERR_SUCCESS, updateDevice s d (fun r => { r with start_params := sp }), [])) ∧
    (∀ (sd : ℕ) (junk : Bool × Bool), sd ∈ ([1, 2, 4, 8] : List ℕ) →
      2 ^ (2 * bitv (gotoM1M2 sd junk).2 + bitv (gotoM1M2 sd junk).1) = sd) := by
  refine ⟨rfl, ?_, ?_, ?_⟩
  · intro s op h i
    cases op with
    | opSetMode d m hw junk =>
      show (((setMode s d m hw junk).2.1).devs.get? i).map _ = _
      by_cases hc : checkDevice s d = true
      · cases m with
        | none => simp [setMode, hc]
        | some mm =>
          cases hw with
          | ok n =>
            have e : setMode s d (some mm) (Except.ok n) junk =
                (ERR_SUCCESS, updateDevice s d (fun r => { r with mode := mm }),
                  [usmc_set_mode_transfer mm junk]) := by
              simp [setMode, hc]
            rw [e]
            exact get?_updateDevice_startParams s d (fun r => { r with mode := mm })
              (fun r => rfl) i
          | error ue => simp [setMode, hc]
      · simp [setMode, hc]
    | opSetParameters d pp hw expA =>
      show (((setParameters s d pp hw expA).2.1).devs.get? i).map _ = _
      by_cases hc : checkDevice s d = true
      · cases pp with
        | none => simp [setParameters, hc]
        | some q =>
          by_cases hv : paramsValid q = true
          · cases hw with
            | ok n =>
              have e : setParameters s d (some q) (Except.ok n) expA =
                  (ERR_SUCCESS, updateDevice s d (fun r => { r with params := q }),
                    [usmc_set_parameters_transfer (deviceAt s d).version q expA]) := by
                simp [setParameters, hc, hv]
              rw [e]
              exact get?_updateDevice_startParams s d (fun r => { r with params := q })
                (fun r => rfl) i
            | error ue => simp [setParameters, hc, hv]
          · simp [setParameters, hc, hv]
      · simp [setParameters, hc]
    | opSetStartParameters d sp => simp [Op.isSetStartParams] at h
    | opSetSpeed d v =>
      show (((setSpeed s d v).2.1).devs.get? i).map _ = _
      by_cases hc : checkDevice s d = true
      · by_cases hr : v < 16 ∨ v > 5000
        · simp [setSpeed, hc, hr]
        · have e : setSpeed s d v =
              (ERR_SUCCESS, updateDevice s d (fun r => { r with speed := v }), []) := by
            simp [setSpeed, hc, hr]
          rw [e]
          exact get?_updateDevice_startParams s d (fun r => { r with speed := v })
            (fun r => rfl) i
      · simp [setSpeed, hc]
    | opMoveTo d dest hw junk =>
      show (((moveTo s d dest hw junk).2.1).devs.get? i).map _ = _
      by_cases hc : checkDevice s d = true <;> simp [moveTo, hc]
    | opStop d hw =>
      show (((stop s d hw).2.1).devs.get? i).map _ = _
      by_cases hc : checkDevice s d = true <;> simp [stop, hc]
    | opSetCurrentPosition d pos =>
      show (((setCurrentPosition s d pos).2.1).devs.get? i).map _ = _
      by_cases hc : checkDevice s d = true <;> simp [setCurrentPosition, hc]
    | opReadOnly => rfl
  · intro s d sp h
    simp [setStartParameters, h]
  · intro sd junk hmem
    have hm : sd = 1 ∨ sd = 2 ∨ sd = 4 ∨ sd = 8 := by simpa using hmem
    rcases hm with rfl | rfl | rfl | rfl <;> rfl

theorem sdivisor_default_preservation_encoding_witness :
    Op.isSetStartParams (Op.opStop 0 (Except.ok 0)) = false ∧
    ((step s0 (Op.opStop 0 (Except.ok 0))).devs.get? 0).map (fun r => r.start_params) =
      (s0.devs.get? 0).map (fun r => r.start_params) ∧
    checkDevice s0 0 = true ∧
    setStartParameters s0 0 (some defaultStartParameters) =
      (ERR_SUCCESS, updateDevice s0 0 (fun r => { r with start_params := defaultStartParameters }), []) ∧
    (8 ∈ ([1, 2, 4, 8] : List ℕ)) ∧
    2 ^ (2 * bitv (gotoM1M2 8 (false, false)).2 + bitv (gotoM1M2 8 (false, false)).1) = 8 :=
  ⟨rfl,
    sdivisor_default_preservation_encoding.2.1 s0 (Op.opStop 0 (Except.ok 0)) rfl 0,
    by decide,
    sdivisor_default_preservation_encoding.2.2.1 s0 0 defaultStartParameters (by decide),
    by decide,
    sdivisor_default_preservation_encoding.2.2.2 8 (false, false) (by decide)⟩

/-! ### Claim C10 -/

lemma paramsValid_set_LoftPeriod_zero (p : USMC_Parameters)
    (hp : paramsValid p = true) :
    paramsValid { p with LoftPeriod := 0 } = true := by
  simp only [paramsValid, inRange, inRangeN, loftOK, Bool.and_eq_true, Bool.or_eq_true,
    decide_eq_true_eq, and_assoc] at hp ⊢
  tauto

lemma paramsValid_set_LoftPeriod_out (p : USMC_Parameters) (v : ℚ)
    (h0 : v ≠ 0) (hr : v < 16 ∨ v > 5000) :
    paramsValid { p with LoftPeriod := v } = false := by
  have hl : loftOK v = false := by
    simp only [loftOK, inRange, Bool.or_eq_false_iff, Bool.and_eq_false_iff,
      decide_eq_false_iff_not]
    refine ⟨h0, ?_⟩
    rcases hr with h | h
    · exact Or.inl (not_le.mpr h)
    · exact Or.inr (not_le.mpr h)
  simp [paramsValid, hl]

/-- C10: `setParameters` treats LoftPeriod = 0.0 as a special disabled
value: adding LoftPeriod = 0 to an otherwise-valid parameter set passes
validation, while any nonzero LoftPeriod outside [16,5000] is rejected
with the invalid-value error before any transfer; and on the wire the
LoftPeriod field encodes 0.0 as raw 0 — which differs from what the
period formula would produce at 0 — while every nonzero value goes
through the 125000-divisor period formula. -/
theorem loftperiod_zero_disabled
    (s : Registry) (d : ℤ) (p : USMC_Parameters) (hw : HwResult) (expA : ℚ → ℚ) (v : ℚ)
    (hd : checkDevice s d = true) (hp : paramsValid p = true)
    (h0 : v ≠ 0) (hr : v < 16 ∨ v > 5000) :
    paramsValid { p with LoftPeriod := 0 } = true ∧
    (setParameters s d (some { p with LoftPeriod := v }) hw expA).1 = ERR_INVALID_VALUE ∧
    (setParameters s d (some { p with LoftPeriod := v }) hw expA).2.2 = [] ∧
    loftPeriodRaw 0 = 0 ∧
    loftPeriodRaw 0 ≠ packWord (period125 0 16 5000) ∧
    (∀ w : ℚ, w ≠ 0 → loftPeriodRaw w = packWord (period125 w 16 5000)) := by
  have hv : paramsValid { p with LoftPeriod := v } = false :=
    paramsValid_set_LoftPeriod_out p v h0 hr
  refine ⟨paramsValid_set_LoftPeriod_zero p hp, ?_, ?_, rfl, ?_, ?_⟩
  · simp [setParameters, hd, hv]
  · simp [setParameters, hd, hv]
  · show (0 : ℕ) ≠ packWord (period125 0 16 5000)
    norm_num [packWord, period125, clampQ, toU16, ratTrunc]
    decide
  · intro w hw0
    simp [loftPeriodRaw, hw0]

theorem loftperiod_zero_disabled_witness :
    checkDevice s0 0 = true ∧ paramsValid sampleParameters = true ∧
    (10 : ℚ) ≠ 0 ∧ ((10 : ℚ) < 16 ∨ (10 : ℚ) > 5000) ∧
    (paramsValid { sampleParameters with LoftPeriod := 0 } = true ∧
     (setParameters s0 0 (some { sampleParameters with LoftPeriod := 10 })
        (Except.ok 7) (fun q => q)).1 = ERR_INVALID_VALUE ∧
     (setParameters s0 0 (some { sampleParameters with LoftPeriod := 10 })
        (Except.ok 7) (fun q => q)).2.2 = [] ∧
     loftPeriodRaw 0 = 0 ∧
     loftPeriodRaw 0 ≠ packWord (period125 0 16 5000) ∧
     (∀ w : ℚ, w ≠ 0 → loftPeriodRaw w = packWord (period125 w 16 5000))) :=
  ⟨by decide,
    by norm_num [paramsValid, sampleParameters, defaultParameters, inRange, inRangeN, loftOK],
    by norm_num, by norm_num,
    loftperiod_zero_disabled s0 0 sampleParameters (Except.ok 7) (fun q => q) 10
      (by decide)
      (by norm_num [paramsValid, sampleParameters, defaultParameters, inRange, inRangeN, loftOK])
      (by norm_num) (by norm_num)⟩

end LibUSMC
